import Mathlib

/-!
# Vote recorder: `netlify/functions/record-vote.js`

A shallow embedding of the single request handler of the repository and the
properties its specification states about it.

Modelling decisions, all taken from the source file:

* The Firestore client is an external collaborator.  `collection.doc(path)` is
  modelled as the client resolves a path: it throws unless the argument is a
  non-empty string without `//` whose non-empty `/`-separated segments, appended
  to the collection, give a document path (an even number of segments); a
  document is identified by those segments, so leading and trailing slashes do not
  matter.  The store is two maps from a document reference to an optional
  document, and `db.runTransaction` run alone is an atomic read-then-write on
  them.  Failures of the store itself (connection, conflicts, a reference the
  backend refuses) are outside the model.
* `JSON.parse(event.body)` is a builtin; an event carries its outcome
  (`ParsedBody`), including the case in which it throws.
* `JSON.stringify(obj)` is a builtin; a response body is either the raw text the
  handler returns or the list of properties that `JSON.stringify` keeps
  (it drops the properties whose value is `undefined`).
* `admin.firestore.FieldValue.serverTimestamp()` is the server clock; the time of
  the call is a parameter `now` of the handler.
* A tally document holds an optional stored integer `voteCount ≥ 0` and its
  remaining fields.  The handler reads it as a JavaScript number and adds in
  double precision: `roundDouble` is the nearest double of an integer (ties to
  even), exact up to `2 ^ 53`.  A count is recorded by its numeric value.
-/

namespace RecordVote

/-! ## JavaScript values -/

/-- A JavaScript value of the parsed body as far as the handler observes it.
`number zero shown` is a number, `zero` telling whether it is `0` or `-0`, whose
string conversion is `shown`; `object shown` is an array or an object whose string
conversion is `shown`. -/
inductive JsVal where
  | undefined
  | null
  | bool (b : Bool)
  | number (zero : Bool) (shown : String)
  | str (s : String)
  | object (shown : String)
  deriving DecidableEq, Repr

/-- JavaScript truthiness (`!x` is its negation). -/
def JsVal.truthy : JsVal → Bool
  | .undefined => false
  | .null => false
  | .bool b => b
  | .number zero _ => !zero
  | .str s => s != ""
  | .object _ => true

/-- String conversion as performed by a template literal. -/
def JsVal.toStr : JsVal → String
  | .undefined => "undefined"
  | .null => "null"
  | .bool true => "true"
  | .bool false => "false"
  | .number _ shown => shown
  | .str s => s
  | .object shown => shown

/-- A value the handler puts into a response object: `num n` is the JavaScript
number of integer value `n`. -/
inductive OutVal where
  | undefined
  | bool (b : Bool)
  | num (n : Nat)
  | str (s : String)
  deriving DecidableEq, Repr

/-- Errors thrown inside the handler's `try` block. -/
inductive JsError where
  | syntaxError
  | typeError
  | invalidPath
  deriving DecidableEq, Repr

/-! ## Requests and responses -/

/-- Outcome of `JSON.parse(event.body)`. -/
inductive ParsedBody where
  /-- `JSON.parse` throws: the body is not well-formed JSON (or is absent). -/
  | syntaxError
  /-- The body is the JSON value `null`. -/
  | null
  /-- The body is a JSON boolean, number, string or array. -/
  | scalar
  /-- The body is a JSON object with the given own properties. -/
  | object (fields : List (String × JsVal))
  deriving DecidableEq, Repr

/-- The part of the Netlify event the handler reads. -/
structure Event where
  httpMethod : String
  body : ParsedBody
  deriving DecidableEq, Repr

/-- A response body: raw text, or the properties of a JSON-encoded object. -/
inductive Body where
  | text (s : String)
  | json (props : List (String × OutVal))
  deriving DecidableEq, Repr

/-- The value the handler returns. -/
structure Response where
  statusCode : Nat
  body : Body
  deriving DecidableEq, Repr

/-- `JSON.stringify` of an object literal: properties whose value is `undefined`
are left out. -/
def jsonStringify (props : List (String × OutVal)) : Body :=
  .json (props.filter fun p => p.2 != OutVal.undefined)

/-- Property read `obj.key`: `undefined` when the object has no such property. -/
def getProp (fields : List (String × JsVal)) (key : String) : JsVal :=
  match fields.lookup key with
  | some v => v
  | none => .undefined

/-- `const { destinationId, voterId } = JSON.parse(event.body)` (line 38). -/
def destructure : ParsedBody → Except JsError (JsVal × JsVal)
  | .syntaxError => .error .syntaxError
  | .null => .error .typeError
  | .scalar => .ok (.undefined, .undefined)
  | .object fields => .ok (getProp fields "destinationId", getProp fields "voterId")

/-! ## Document references -/

/-- A document of a collection, identified by the path segments below the
collection. -/
abbrev DocRef := List String

/-- The pieces of a path between its slashes (`split('/')`). -/
def splitSlash : List Char → List (List Char)
  | [] => [[]]
  | c :: cs =>
    if c = '/' then [] :: splitSlash cs
    else
      match splitSlash cs with
      | [] => [[c]]
      | seg :: rest => (c :: seg) :: rest

/-- Whether a path contains `//`. -/
def hasDoubleSlash : List Char → Bool
  | [] => false
  | c :: cs => (c == '/' && cs.head? == some '/') || hasDoubleSlash cs

/-- The non-empty segments of a path. -/
def pathSegments (s : String) : List String :=
  ((splitSlash s.data).filter fun seg => !seg.isEmpty).map String.mk

/-- `collection.doc(path)` of lines 46 and 47: the client throws unless `path` is
a non-empty string without `//` that, appended to the one-segment collection path,
has an even number of segments; the reference is the list of segments. -/
def docPath : JsVal → Except JsError DocRef
  | .str s =>
    if s = "" ∨ hasDoubleSlash s.data = true then .error .invalidPath
    else if (1 + (pathSegments s).length) % 2 = 0 then .ok (pathSegments s)
    else .error .invalidPath
  | _ => .error .invalidPath

/-- The receipt id of line 47: the template literal `voterId_destinationId`. -/
def userVoteId (voterId destinationId : JsVal) : String :=
  voterId.toStr ++ "_" ++ destinationId.toStr

/-! ## The document store -/

/-- A document of collection `destinationVotes`. -/
structure TallyDoc where
  voteCount : Option Nat
  others : List (String × JsVal)
  deriving DecidableEq, Repr

/-- A document of collection `userVotes`. -/
structure ReceiptDoc where
  votedAt : Nat
  deriving DecidableEq, Repr

/-- The two collections, each keyed by document reference. -/
structure Store where
  destinationVotes : DocRef → Option TallyDoc
  userVotes : DocRef → Option ReceiptDoc

/-- The store with no document. -/
def Store.empty : Store :=
  { destinationVotes := fun _ => none, userVotes := fun _ => none }

/-- The nearest double of a natural number, ties to even: what the handler gets
when it reads a stored integer or adds two numbers.  Exact up to `2 ^ 53`; above,
the value keeps 53 significant bits. -/
def roundDouble (n : Nat) : Nat :=
  if n ≤ 2 ^ 53 then n
  else
    let e := Nat.log2 n - 52
    let q := n / 2 ^ e
    let r := n % 2 ^ e
    if 2 ^ e < 2 * r ∨ (2 * r = 2 ^ e ∧ q % 2 = 1) then (q + 1) * 2 ^ e else q * 2 ^ e

/-- `transaction.set(ref, { voteCount: c }, { merge: true })`: the other fields
of an existing document are kept. -/
def setMergeVoteCount (doc : Option TallyDoc) (c : Nat) : TallyDoc :=
  match doc with
  | some t => { t with voteCount := some c }
  | none => { voteCount := some c, others := [] }

/-- Replace the document stored under `ref`. -/
def writeDoc {α : Type} (coll : DocRef → Option α) (ref : DocRef) (doc : α) :
    DocRef → Option α :=
  fun k => if k = ref then some doc else coll k

/-- `x || 0` for a count read from a document: an absent count and `0` both
give `0`. -/
def orZero : Option Nat → Nat
  | some n => n
  | none => 0

/-- `voteCountDoc.data().voteCount`: the stored integer as a JavaScript number,
`undefined` when the field is absent. -/
def readVoteCount (t : TallyDoc) : Option Nat :=
  t.voteCount.map roundDouble

/-- The right-hand side of line 62:
`voteCountDoc.exists ? (voteCountDoc.data().voteCount || 0) + 1 : 1`. -/
def nextCount (voteCountDoc : Option TallyDoc) : Nat :=
  match voteCountDoc with
  | some t => roundDouble (orZero (readVoteCount t) + 1)
  | none => 1

/-- What the transaction callback leaves in the two captured variables. -/
structure TxOutcome where
  alreadyVoted : Bool
  currentCount : OutVal
  deriving DecidableEq, Repr

/-- The transaction of lines 53-68, run alone against the store. -/
def voteTransaction (db : Store) (now : Nat) (voteCountRef userVoteRef : DocRef) :
    TxOutcome × Store :=
  let userVoteDoc := db.userVotes userVoteRef
  let voteCountDoc := db.destinationVotes voteCountRef
  match userVoteDoc with
  | some _ =>
    let currentCount : OutVal :=
      match voteCountDoc with
      | some t =>
        match readVoteCount t with
        | some n => .num n
        | none => .undefined
      | none => .num 0
    ({ alreadyVoted := true, currentCount := currentCount }, db)
  | none =>
    let currentCount : Nat := nextCount voteCountDoc
    ({ alreadyVoted := false, currentCount := .num currentCount },
     { destinationVotes :=
         writeDoc db.destinationVotes voteCountRef (setMergeVoteCount voteCountDoc currentCount),
       userVotes := writeDoc db.userVotes userVoteRef { votedAt := now } })

/-- The body of the `try` block, lines 36-82. -/
def tryBlock (db : Store) (now : Nat) (event : Event) : Except JsError (Response × Store) :=
  match destructure event.body with
  | .error e => .error e
  | .ok (destinationId, voterId) =>
    if !destinationId.truthy || !voterId.truthy then
      .ok ({ statusCode := 400,
             body := jsonStringify [("success", .bool false),
                                    ("error", .str "Missing destinationId or voterId")] }, db)
    else
      match docPath destinationId with
      | .error e => .error e
      | .ok voteCountRef =>
        match docPath (.str (userVoteId voterId destinationId)) with
        | .error e => .error e
        | .ok userVoteRef =>
          let (out, db') := voteTransaction db now voteCountRef userVoteRef
          if out.alreadyVoted then
            .ok ({ statusCode := 200,
                   body := jsonStringify [("success", .bool false),
                                          ("message", .str "Already voted"),
                                          ("currentCount", out.currentCount)] }, db')
          else
            .ok ({ statusCode := 200,
                   body := jsonStringify
                     [("success", .bool true),
                      ("message", .str ("Vote recorded for " ++ destinationId.toStr)),
                      ("newCount", out.currentCount)] }, db')

/-- The exported handler, lines 30-90: the response and the store it leaves. -/
def handler (db : Store) (now : Nat) (event : Event) : Response × Store :=
  if event.httpMethod ≠ "POST" then
    ({ statusCode := 405, body := .text "Method Not Allowed" }, db)
  else
    match tryBlock db now event with
    | .ok r => r
    | .error _ =>
      ({ statusCode := 500,
         body := jsonStringify [("success", .bool false),
                                ("error", .str "Internal server error processing vote.")] }, db)

/-- Handler calls run one after another: the responses in order and the final store. -/
def runCalls (db : Store) : List (Nat × Event) → List Response × Store
  | [] => ([], db)
  | (now, event) :: rest =>
    let (r, db') := handler db now event
    let (rs, db'') := runCalls db' rest
    (r :: rs, db'')

/-- A POST whose body is the object `{ destinationId: d, voterId: v }`. -/
def voteEvent (d v : String) : Event :=
  { httpMethod := "POST",
    body := .object [("destinationId", .str d), ("voterId", .str v)] }

/-- The stored count of the tally document at `ref`: `0` when the document or its
`voteCount` is absent. -/
def tallyCount (db : Store) (ref : DocRef) : Nat :=
  ((db.destinationVotes ref).bind TallyDoc.voteCount).getD 0

/-- The fields other than `voteCount` of an optional tally document. -/
def otherFields : Option TallyDoc → List (String × JsVal)
  | some t => t.others
  | none => []

/-- The `success` property of a JSON-encoded object body; a text body is not a
JSON-encoded object and has none. -/
def Body.successFlag : Body → Option OutVal
  | .text _ => none
  | .json props => props.lookup "success"

/-- A store holding the receipt of voter `u1` for `paris` and a tally document for
`paris` that has a `name` field but no `voteCount`. -/
def seededStore : Store :=
  { destinationVotes := fun k =>
      if k = ["paris"] then some { voteCount := none, others := [("name", .str "Paris")] }
      else none,
    userVotes := fun k => if k = ["u1_paris"] then some { votedAt := 7 } else none }

/-- A sequence of vote requests, each with its call time, destination id and
voter id, as handler calls. -/
def voteCalls (calls : List (Nat × String × String)) : List (Nat × Event) :=
  calls.map fun c => (c.1, voteEvent c.2.1 c.2.2)

/-- The voter ids of the requests of `calls` that are for destination `d`. -/
def votersOf (calls : List (Nat × String × String)) (d : String) : List String :=
  (calls.filter fun c => c.2.1 = d).map fun c => c.2.2

/-- In the words of the specification: the number of distinct voter ids that have
issued a vote request for destination `d`. -/
def distinctVoters (calls : List (Nat × String × String)) (d : String) : Nat :=
  (votersOf calls d).dedup.length

/-- The exactly-once invariant between a store and the vote requests served so
far, for voter ids without an underscore: a receipt exists exactly for the pairs
that have voted, and each tally counts the distinct voters of its destination. -/
def VoteInv (db : Store) (hist : List (Nat × String × String)) : Prop :=
  (∀ d v, '_' ∉ v.data →
    (db.userVotes [userVoteId (.str v) (.str d)] ≠ none ↔ v ∈ votersOf hist d)) ∧
  (∀ d, tallyCount db [d] = distinctVoters hist d)

/-- A store whose tally document for `paris` holds the count `2 ^ 53`. -/
def saturatedStore : Store :=
  { destinationVotes := fun k =>
      if k = ["paris"] then some { voteCount := some (2 ^ 53), others := [] } else none,
    userVotes := fun _ => none }

/-! ## Unfolding the handler -/

theorem handler_not_post (db : Store) (now : Nat) (event : Event)
    (hm : event.httpMethod ≠ "POST") :
    handler db now event = ({ statusCode := 405, body := .text "Method Not Allowed" }, db) := by
  simp [handler, hm]

theorem handler_throws (db : Store) (now : Nat) (event : Event) (e : JsError)
    (hm : event.httpMethod = "POST") (hb : destructure event.body = .error e) :
    handler db now event =
      ({ statusCode := 500,
         body := .json [("success", .bool false),
                        ("error", .str "Internal server error processing vote.")] }, db) := by
  simp [handler, hm, tryBlock, hb, jsonStringify]

theorem handler_falsy (db : Store) (now : Nat) (event : Event) (x y : JsVal)
    (hm : event.httpMethod = "POST") (hb : destructure event.body = .ok (x, y))
    (hf : x.truthy = false ∨ y.truthy = false) :
    handler db now event =
      ({ statusCode := 400,
         body := .json [("success", .bool false),
                        ("error", .str "Missing destinationId or voterId")] }, db) := by
  have hc : (!x.truthy || !y.truthy) = true := by
    rcases hf with h | h <;> simp [h]
  simp [handler, hm, tryBlock, hb, hc, jsonStringify]

theorem handler_bad_path (db : Store) (now : Nat) (event : Event) (d v : String)
    (hm : event.httpMethod = "POST")
    (hb : destructure event.body = .ok (.str d, .str v))
    (hp : (∀ ref, docPath (.str d) ≠ .ok ref) ∨
          (∀ ref, docPath (.str (userVoteId (.str v) (.str d))) ≠ .ok ref)) :
    (handler db now event).2 = db := by
  simp only [handler, hm, tryBlock, hb]
  by_cases hc : (!(JsVal.str d).truthy || !(JsVal.str v).truthy) = true
  · simp [hc]
  · cases h1 : docPath (.str d) with
    | error e => simp [hc, h1]
    | ok tref =>
      cases h2 : docPath (.str (userVoteId (.str v) (.str d))) with
      | error e => simp [hc, h1, h2]
      | ok rref =>
        rcases hp with hp | hp
        · exact absurd h1 (hp tref)
        · exact absurd h2 (hp rref)

theorem handler_vote (db : Store) (now : Nat) (event : Event) (d v : String)
    (tref rref : DocRef)
    (hm : event.httpMethod = "POST")
    (hb : destructure event.body = .ok (.str d, .str v))
    (hd : d ≠ "") (hv : v ≠ "")
    (hdr : docPath (.str d) = .ok tref)
    (hrr : docPath (.str (userVoteId (.str v) (.str d))) = .ok rref) :
    handler db now event =
      (if (voteTransaction db now tref rref).1.alreadyVoted then
         { statusCode := 200,
           body := jsonStringify
             [("success", .bool false), ("message", .str "Already voted"),
              ("currentCount", (voteTransaction db now tref rref).1.currentCount)] }
       else
         { statusCode := 200,
           body := jsonStringify
             [("success", .bool true), ("message", .str ("Vote recorded for " ++ d)),
              ("newCount", (voteTransaction db now tref rref).1.currentCount)] },
       (voteTransaction db now tref rref).2) := by
  have hc : (!(JsVal.str d).truthy || !(JsVal.str v).truthy) = false := by
    simp [JsVal.truthy, hd, hv]
  simp only [handler, hm, tryBlock, hb, hc, hdr, hrr, JsVal.toStr]
  by_cases h : (voteTransaction db now tref rref).1.alreadyVoted = true
  · simp [h]
  · simp [h]

theorem roundDouble_of_le (n : Nat) (h : n ≤ 2 ^ 53) : roundDouble n = n := by
  unfold roundDouble
  exact if_pos h

theorem nextCount_of_lt (db : Store) (ref : DocRef) (h : tallyCount db ref < 2 ^ 53) :
    nextCount (db.destinationVotes ref) = tallyCount db ref + 1 := by
  unfold tallyCount at h ⊢
  unfold nextCount
  cases hdoc : db.destinationVotes ref with
  | none => simp
  | some t =>
    rw [hdoc] at h
    cases hc : t.voteCount with
    | none =>
      simp [readVoteCount, hc, orZero, roundDouble_of_le]
    | some n =>
      have hn : n < 2 ^ 53 := by simpa [hc] using h
      simp only [readVoteCount, hc, Option.map_some', orZero, Option.bind_some,
        Option.getD_some]
      rw [roundDouble_of_le n (Nat.le_of_lt hn), roundDouble_of_le (n + 1) hn]
      simp [hc]

theorem voteTransaction_fresh (db : Store) (now : Nat) (tref rref : DocRef)
    (hr : db.userVotes rref = none) :
    voteTransaction db now tref rref =
      ({ alreadyVoted := false, currentCount := .num (nextCount (db.destinationVotes tref)) },
       { destinationVotes :=
           writeDoc db.destinationVotes tref
             (setMergeVoteCount (db.destinationVotes tref)
               (nextCount (db.destinationVotes tref))),
         userVotes := writeDoc db.userVotes rref { votedAt := now } }) := by
  unfold voteTransaction
  simp only [hr]

theorem voteTransaction_repeat (db : Store) (now : Nat) (tref rref : DocRef) (r : ReceiptDoc)
    (hr : db.userVotes rref = some r) :
    (voteTransaction db now tref rref).1.alreadyVoted = true ∧
    (voteTransaction db now tref rref).2 = db := by
  unfold voteTransaction
  simp only [hr, and_self]

theorem setMergeVoteCount_ne (doc : Option TallyDoc) (c : Nat)
    (h : doc.bind TallyDoc.voteCount ≠ some c) :
    some (setMergeVoteCount doc c) ≠ doc := by
  intro heq
  apply h
  rw [← heq]
  cases doc <;> rfl

theorem otherFields_setMerge (doc : Option TallyDoc) (c : Nat) :
    otherFields (some (setMergeVoteCount doc c)) = otherFields doc := by
  cases doc <;> rfl

/-- Every response of the handler has one of four shapes. -/
theorem handler_shapes (db : Store) (now : Nat) (event : Event) :
    ((handler db now event).1 = { statusCode := 405, body := .text "Method Not Allowed" }) ∨
    ((handler db now event).1 =
      { statusCode := 400,
        body := .json [("success", .bool false),
                       ("error", .str "Missing destinationId or voterId")] }) ∨
    ((handler db now event).1 =
      { statusCode := 500,
        body := .json [("success", .bool false),
                       ("error", .str "Internal server error processing vote.")] }) ∨
    (handler db now event).1.statusCode = 200 := by
  by_cases hm : event.httpMethod = "POST"
  · right
    simp only [handler, hm, tryBlock]
    cases destructure event.body with
    | error e => simp [jsonStringify]
    | ok p =>
      obtain ⟨x, y⟩ := p
      by_cases hc : (!x.truthy || !y.truthy) = true
      · simp [hc, jsonStringify]
      · cases hp : docPath x with
        | error e => simp [hc, hp, jsonStringify]
        | ok tref =>
          cases hq : docPath (.str (userVoteId y x)) with
          | error e => simp [hc, hp, hq, jsonStringify]
          | ok rref =>
            right; right
            by_cases ha : (voteTransaction db now tref rref).1.alreadyVoted = true
            · simp [hc, hp, hq, ha]
            · simp [hc, hp, hq, ha]
  · left
    rw [handler_not_post db now event hm]

/-! ## Receipt ids and the exactly-once invariant -/

theorem append_sep_inj (c : Char) (l1 l2 r1 r2 : List Char) (h1 : c ∉ l1) (h2 : c ∉ l2)
    (h : l1 ++ c :: r1 = l2 ++ c :: r2) : l1 = l2 ∧ r1 = r2 := by
  induction l1 generalizing l2 with
  | nil =>
    cases l2 with
    | nil => simpa using h
    | cons b l2 =>
      simp only [List.nil_append, List.cons_append, List.cons.injEq] at h
      exact absurd (h.1 ▸ List.mem_cons_self b l2) h2
  | cons a l1 ih =>
    cases l2 with
    | nil =>
      simp only [List.nil_append, List.cons_append, List.cons.injEq] at h
      exact absurd (h.1 ▸ List.mem_cons_self a l1) h1
    | cons b l2 =>
      simp only [List.cons_append, List.cons.injEq] at h
      have hi := ih l2 (fun hc => h1 (List.mem_cons_of_mem a hc))
        (fun hc => h2 (List.mem_cons_of_mem b hc)) h.2
      exact ⟨by rw [h.1, hi.1], hi.2⟩

/-- The receipt id determines the pair when the voter ids have no underscore. -/
theorem userVoteId_inj (v1 d1 v2 d2 : String) (h1 : '_' ∉ v1.data) (h2 : '_' ∉ v2.data)
    (h : userVoteId (.str v1) (.str d1) = userVoteId (.str v2) (.str d2)) :
    v1 = v2 ∧ d1 = d2 := by
  have hdata := congrArg String.data h
  simp only [userVoteId, JsVal.toStr, String.data_append, List.append_assoc] at hdata
  have := append_sep_inj '_' v1.data v2.data d1.data d2.data h1 h2 hdata
  exact ⟨String.ext this.1, String.ext this.2⟩

theorem splitSlash_of_not_mem (l : List Char) (h : '/' ∉ l) : splitSlash l = [l] := by
  induction l with
  | nil => rfl
  | cons c cs ih =>
    have hc : c ≠ '/' := fun hc => h (hc ▸ List.mem_cons_self c cs)
    have hcs : '/' ∉ cs := fun hm => h (List.mem_cons_of_mem c hm)
    simp [splitSlash, hc, ih hcs]

theorem hasDoubleSlash_of_not_mem (l : List Char) (h : '/' ∉ l) :
    hasDoubleSlash l = false := by
  induction l with
  | nil => rfl
  | cons c cs ih =>
    have hc : c ≠ '/' := fun hc => h (hc ▸ List.mem_cons_self c cs)
    have hcs : '/' ∉ cs := fun hm => h (List.mem_cons_of_mem c hm)
    simp [hasDoubleSlash, hc, ih hcs]

/-- A non-empty id without a slash is the one segment of its document reference. -/
theorem docPath_of_no_slash (s : String) (hs : s ≠ "") (h : '/' ∉ s.data) :
    docPath (.str s) = .ok [s] := by
  have hdata : s.data ≠ [] := by
    intro hnil
    apply hs
    exact String.ext hnil
  have hseg : pathSegments s = [s] := by
    unfold pathSegments
    rw [splitSlash_of_not_mem s.data h]
    cases hl : s.data with
    | nil => exact absurd hl hdata
    | cons c cs =>
      simp only [List.filter, List.isEmpty_cons, Bool.not_false, List.map_cons, List.map_nil]
      rw [← hl]
  simp [docPath, hs, hasDoubleSlash_of_not_mem s.data h, hseg]

theorem userVoteId_no_slash (v d : String) (hv : '/' ∉ v.data) (hd : '/' ∉ d.data) :
    userVoteId (.str v) (.str d) ≠ "" ∧ '/' ∉ (userVoteId (.str v) (.str d)).data := by
  have hdata : (userVoteId (.str v) (.str d)).data = v.data ++ '_' :: d.data := by
    simp [userVoteId, JsVal.toStr, String.data_append]
  constructor
  · intro h
    rw [h] at hdata
    have := congrArg List.length hdata
    simp at this
    omega
  · rw [hdata]
    intro hm
    rcases List.mem_append.1 hm with h1 | h2
    · exact hv h1
    · rcases List.mem_cons.1 h2 with h3 | h4
      · exact absurd h3 (by decide)
      · exact hd h4

theorem votersOf_snoc (hist : List (Nat × String × String)) (now : Nat) (d v d' : String) :
    votersOf (hist ++ [(now, d, v)]) d' =
      if d = d' then votersOf hist d' ++ [v] else votersOf hist d' := by
  unfold votersOf
  by_cases h : d = d'
  · simp [List.filter_append, h]
  · simp [List.filter_append, h]

theorem distinctVoters_snoc (hist : List (Nat × String × String)) (now : Nat)
    (d v d' : String) :
    distinctVoters (hist ++ [(now, d, v)]) d' =
      if d = d' ∧ v ∉ votersOf hist d' then distinctVoters hist d' + 1
      else distinctVoters hist d' := by
  unfold distinctVoters
  rw [votersOf_snoc, ← List.card_toFinset, ← List.card_toFinset]
  by_cases h : d = d'
  · by_cases hv : v ∈ votersOf hist d'
    · have hv' : v ∈ (votersOf hist d').toFinset := by simpa using hv
      have hu : (votersOf hist d').toFinset ∪ {v} = (votersOf hist d').toFinset := by
        rw [Finset.union_comm, ← Finset.insert_eq, Finset.insert_eq_of_mem hv']
      simp [h, hv, List.toFinset_append, hu]
    · have hv' : v ∉ (votersOf hist d').toFinset := by simpa using hv
      have hu : (votersOf hist d').toFinset ∪ {v} = insert v (votersOf hist d').toFinset := by
        rw [Finset.union_comm, ← Finset.insert_eq]
      simp only [h, hv, List.toFinset_append, List.toFinset_cons, List.toFinset_nil,
        if_true, not_false_eq_true, and_self, insert_emptyc_eq]
      rw [hu, Finset.card_insert_of_not_mem hv']
  · simp [h]

theorem distinctVoters_le_length (hist : List (Nat × String × String)) (d : String) :
    distinctVoters hist d ≤ hist.length := by
  unfold distinctVoters votersOf
  calc ((List.filter (fun c => decide (c.2.1 = d)) hist).map fun c => c.2.2).dedup.length
      ≤ ((List.filter (fun c => decide (c.2.1 = d)) hist).map fun c => c.2.2).length :=
        (List.dedup_sublist _).length_le
    _ = (List.filter (fun c => decide (c.2.1 = d)) hist).length := List.length_map _ _
    _ ≤ hist.length := List.length_filter_le _ _

theorem voteInv_empty : VoteInv Store.empty [] := by
  refine ⟨fun d v _ => ?_, fun d => ?_⟩
  · simp [Store.empty, votersOf]
  · simp [Store.empty, tallyCount, distinctVoters, votersOf]

theorem handler_voteEvent (db : Store) (now : Nat) (d v : String)
    (hd : d ≠ "") (hv : v ≠ "") (hsd : '/' ∉ d.data) (hsv : '/' ∉ v.data) :
    (handler db now (voteEvent d v)).2 =
      (voteTransaction db now [d] [userVoteId (.str v) (.str d)]).2 := by
  have hid := userVoteId_no_slash v d hsv hsd
  rw [handler_vote db now (voteEvent d v) d v [d] [userVoteId (.str v) (.str d)]
    rfl rfl hd hv (docPath_of_no_slash d hd hsd) (docPath_of_no_slash _ hid.1 hid.2)]

/-- One valid vote request keeps the invariant. -/
theorem voteInv_step (db : Store) (hist : List (Nat × String × String)) (now : Nat)
    (d v : String) (hd : d ≠ "") (hv : v ≠ "") (hu : '_' ∉ v.data)
    (hsd : '/' ∉ d.data) (hsv : '/' ∉ v.data) (hlen : hist.length < 2 ^ 53)
    (hI : VoteInv db hist) :
    VoteInv (handler db now (voteEvent d v)).2 (hist ++ [(now, d, v)]) := by
  rw [handler_voteEvent db now d v hd hv hsd hsv]
  obtain ⟨hrec, htal⟩ := hI
  have hbound : tallyCount db [d] < 2 ^ 53 := by
    rw [htal d]
    exact lt_of_le_of_lt (distinctVoters_le_length hist d) hlen
  rcases Option.eq_none_or_eq_some (db.userVotes [userVoteId (.str v) (.str d)])
    with hr | ⟨r, hr⟩
  · have hnot : v ∉ votersOf hist d := by
      intro hmem
      exact ((hrec d v hu).2 hmem) hr
    rw [voteTransaction_fresh db now _ _ hr, nextCount_of_lt db [d] hbound]
    refine ⟨fun d' v' hu' => ?_, fun d' => ?_⟩
    · rw [votersOf_snoc]
      by_cases hid : userVoteId (.str v') (.str d') = userVoteId (.str v) (.str d)
      · obtain ⟨hv', hd'⟩ := userVoteId_inj v' d' v d hu' hu hid
        subst hv' hd'
        simp [writeDoc]
      · have hne : ¬ (d = d' ∧ v = v') := by
          rintro ⟨rfl, rfl⟩
          exact hid rfl
        simp only [writeDoc, List.cons.injEq, and_true, hid, if_false]
        rw [hrec d' v' hu']
        by_cases hdd : d = d'
        · have hvv : v' ≠ v := fun h => hne ⟨hdd, h.symm⟩
          simp [hdd, hvv]
        · simp [hdd]
    · rw [distinctVoters_snoc]
      by_cases hdd : d = d'
      · subst hdd
        simp only [hnot, not_false_eq_true, and_self, if_true]
        rw [← htal d]
        unfold tallyCount
        simp only [writeDoc, if_true]
        cases hdoc : db.destinationVotes [d] <;> simp [setMergeVoteCount]
      · have hdd' : ¬ d' = d := fun h => hdd h.symm
        simp only [tallyCount, writeDoc, List.cons.injEq, and_true, hdd', hdd, if_false,
          false_and]
        exact htal d'
  · have hmem : v ∈ votersOf hist d := (hrec d v hu).1 (by simp [hr])
    rw [(voteTransaction_repeat db now _ _ r hr).2]
    refine ⟨fun d' v' hu' => ?_, fun d' => ?_⟩
    · rw [votersOf_snoc, hrec d' v' hu']
      by_cases hdd : d = d'
      · subst hdd
        by_cases hvv : v' = v
        · subst hvv; simp [hmem]
        · simp [hvv]
      · simp [hdd]
    · rw [distinctVoters_snoc, htal d']
      by_cases hdd : d = d'
      · subst hdd; simp [hmem]
      · simp [hdd]

theorem runCalls_cons (db : Store) (now : Nat) (event : Event) (rest : List (Nat × Event)) :
    (runCalls db ((now, event) :: rest)).2 = (runCalls (handler db now event).2 rest).2 := by
  simp [runCalls]

theorem voteInv_runCalls (calls hist : List (Nat × String × String)) (db : Store)
    (hvalid : ∀ c ∈ calls, c.2.1 ≠ "" ∧ c.2.2 ≠ "" ∧ '_' ∉ c.2.2.data ∧
      '/' ∉ c.2.1.data ∧ '/' ∉ c.2.2.data)
    (hlen : (hist ++ calls).length < 2 ^ 53)
    (hI : VoteInv db hist) :
    VoteInv (runCalls db (voteCalls calls)).2 (hist ++ calls) := by
  induction calls generalizing db hist with
  | nil => simpa [voteCalls, runCalls] using hI
  | cons c rest ih =>
    obtain ⟨now, d, v⟩ := c
    have hc := hvalid (now, d, v) (List.mem_cons_self _ _)
    have hl : hist.length < 2 ^ 53 := by
      simp only [List.length_append, List.length_cons] at hlen
      omega
    have hstep := voteInv_step db hist now d v hc.1 hc.2.1 hc.2.2.1 hc.2.2.2.1 hc.2.2.2.2
      hl hI
    have := ih (hist ++ [(now, d, v)]) (handler db now (voteEvent d v)).2
      (fun c hcm => hvalid c (List.mem_cons_of_mem _ hcm)) (by simpa using hlen) hstep
    simpa [voteCalls, runCalls_cons] using this

/-- Exactly-once counting, for ids without a slash and voter ids without an
underscore: after fewer than `2 ^ 53` valid vote requests served one after another
from the empty store, every tally equals the number of distinct voters of its
destination. -/
theorem tally_eq_distinct_voters (calls : List (Nat × String × String))
    (hvalid : ∀ c ∈ calls, c.2.1 ≠ "" ∧ c.2.2 ≠ "" ∧ '_' ∉ c.2.2.data ∧
      '/' ∉ c.2.1.data ∧ '/' ∉ c.2.2.data)
    (hlen : calls.length < 2 ^ 53) (d : String) :
    tallyCount (runCalls Store.empty (voteCalls calls)).2 [d] = distinctVoters calls d := by
  have := voteInv_runCalls calls [] Store.empty hvalid (by simpa using hlen) voteInv_empty
  simpa using this.2 d

/-- The example of the specification: paris/u1, paris/u1, paris/u2 is answered
with counts 1, 1 and 2. -/
theorem paris_example :
    (runCalls Store.empty (voteCalls [(0, "paris", "u1"), (1, "paris", "u1"),
        (2, "paris", "u2")])).1 =
      [{ statusCode := 200,
         body := .json [("success", .bool true), ("message", .str "Vote recorded for paris"),
                        ("newCount", .num 1)] },
       { statusCode := 200,
         body := .json [("success", .bool false), ("message", .str "Already voted"),
                        ("currentCount", .num 1)] },
       { statusCode := 200,
         body := .json [("success", .bool true), ("message", .str "Vote recorded for paris"),
                        ("newCount", .num 2)] }] := by
  decide

/-- Repeat vote with a count to report: when the receipt document exists and the
tally document is absent or carries a `voteCount`, the handler answers 200 with
`{success: false, message: "Already voted", currentCount: c}`, `c` the tally count
as a JavaScript number, and the store is unchanged. -/
theorem repeat_vote_no_write (db : Store) (now : Nat) (event : Event) (d v : String)
    (tref rref : DocRef) (r : ReceiptDoc)
    (hm : event.httpMethod = "POST")
    (hb : destructure event.body = .ok (.str d, .str v))
    (hd : d ≠ "") (hv : v ≠ "")
    (hdr : docPath (.str d) = .ok tref)
    (hrr : docPath (.str (userVoteId (.str v) (.str d))) = .ok rref)
    (hr : db.userVotes rref = some r)
    (hc : ∀ t, db.destinationVotes tref = some t → t.voteCount ≠ none) :
    handler db now event =
      ({ statusCode := 200,
         body := .json [("success", .bool false), ("message", .str "Already voted"),
                        ("currentCount", .num (roundDouble (tallyCount db tref)))] }, db) := by
  rw [handler_vote db now event d v tref rref hm hb hd hv hdr hrr]
  unfold voteTransaction tallyCount
  simp only [hr]
  rcases Option.eq_none_or_eq_some (db.destinationVotes tref) with hdoc | ⟨t, hdoc⟩
  · simp [hdoc, jsonStringify, roundDouble]
  · rcases Option.eq_none_or_eq_some t.voteCount with hn | ⟨n, hn⟩
    · exact absurd hn (hc t hdoc)
    · simp [hdoc, hn, jsonStringify, readVoteCount]

/-- Duplicates served one after another: once the receipt of `(v, d)` exists and
the tally of `d` carries a count, every further request of `v` for `d` is answered
"Already voted" with that count and the store stays as it is. -/
theorem runCalls_duplicates (db : Store) (d v : String) (tref rref : DocRef)
    (r : ReceiptDoc) (t : TallyDoc) (c : Nat) (hd : d ≠ "") (hv : v ≠ "")
    (hdr : docPath (.str d) = .ok tref)
    (hrr : docPath (.str (userVoteId (.str v) (.str d))) = .ok rref)
    (hr : db.userVotes rref = some r)
    (ht : db.destinationVotes tref = some t) (hc : t.voteCount = some c)
    (times : List Nat) :
    runCalls db (voteCalls (times.map fun n => (n, d, v))) =
      (List.replicate times.length
        { statusCode := 200,
          body := .json [("success", .bool false), ("message", .str "Already voted"),
                         ("currentCount", .num (roundDouble c))] }, db) := by
  have hcount : tallyCount db tref = c := by simp [tallyCount, ht, hc]
  have hone : ∀ now, handler db now (voteEvent d v) =
      ({ statusCode := 200,
         body := .json [("success", .bool false), ("message", .str "Already voted"),
                        ("currentCount", .num (roundDouble c))] }, db) := by
    intro now
    have := repeat_vote_no_write db now (voteEvent d v) d v tref rref r rfl rfl hd hv
      hdr hrr hr (fun t' ht' => by rw [ht] at ht'; cases ht'; simp [hc])
    rw [hcount] at this
    exact this
  induction times with
  | nil => rfl
  | cons n rest ih =>
    simp only [List.map_cons, voteCalls, runCalls, hone, List.length_cons, List.replicate_succ]
    simp only [voteCalls] at ih
    rw [ih]

/-! ## Claims -/

/-- C1 as stated fails: the body parses to the non-empty strings `a/b` and `u1`
and the store holds no receipt at all, yet the client does not take `a/b` as the
path of a document and the handler answers 500. -/
theorem slash_destination_rejected :
    destructure (voteEvent "a/b" "u1").body = .ok (.str "a/b", .str "u1") ∧
    "a/b" ≠ "" ∧ "u1" ≠ "" ∧
    (∀ ref, Store.empty.userVotes ref = none) ∧
    (handler Store.empty 0 (voteEvent "a/b" "u1")).1 =
      { statusCode := 500,
        body := .json [("success", .bool false),
                       ("error", .str "Internal server error processing vote.")] } :=
  ⟨rfl, by decide, by decide, fun _ => rfl, by decide⟩

/-- C1 amended (first-time vote): a POST whose body destructures to non-empty
strings `d` and `v` that the client resolves, `d` to the tally reference and the
receipt id of `(v, d)` to the receipt reference, on a store without that receipt
document and with a tally count `n` below `2 ^ 53` (0 when the document or its
`voteCount` is absent), is answered with status 200 and body `{success: true,
message, newCount: n + 1}`; afterwards the tally document has `voteCount = n + 1`
and the receipt document exists. -/
theorem first_vote_recorded (db : Store) (now : Nat) (event : Event) (d v : String)
    (tref rref : DocRef)
    (hm : event.httpMethod = "POST")
    (hb : destructure event.body = .ok (.str d, .str v))
    (hd : d ≠ "") (hv : v ≠ "")
    (hdr : docPath (.str d) = .ok tref)
    (hrr : docPath (.str (userVoteId (.str v) (.str d))) = .ok rref)
    (hr : db.userVotes rref = none)
    (hn : tallyCount db tref < 2 ^ 53) :
    (handler db now event).1 =
        { statusCode := 200,
          body := .json [("success", .bool true),
                         ("message", .str ("Vote recorded for " ++ d)),
                         ("newCount", .num (tallyCount db tref + 1))] } ∧
    (∃ t, (handler db now event).2.destinationVotes tref = some t ∧
          t.voteCount = some (tallyCount db tref + 1)) ∧
    (handler db now event).2.userVotes rref = some { votedAt := now } := by
  rw [handler_vote db now event d v tref rref hm hb hd hv hdr hrr,
    voteTransaction_fresh db now tref rref hr, nextCount_of_lt db tref hn]
  refine ⟨by simp [jsonStringify], ?_, by simp [writeDoc]⟩
  refine ⟨setMergeVoteCount (db.destinationVotes tref) (tallyCount db tref + 1),
    by simp [writeDoc], ?_⟩
  cases db.destinationVotes tref <;> rfl

theorem first_vote_recorded_witness :
    (handler Store.empty 3 (voteEvent "paris" "u1")).1 =
        { statusCode := 200,
          body := .json [("success", .bool true),
                         ("message", .str ("Vote recorded for " ++ "paris")),
                         ("newCount", .num (tallyCount Store.empty ["paris"] + 1))] } ∧
    (∃ t, (handler Store.empty 3 (voteEvent "paris" "u1")).2.destinationVotes ["paris"] =
            some t ∧
          t.voteCount = some (tallyCount Store.empty ["paris"] + 1)) ∧
    (handler Store.empty 3 (voteEvent "paris" "u1")).2.userVotes ["u1_paris"] =
        some { votedAt := 3 } :=
  first_vote_recorded Store.empty 3 (voteEvent "paris" "u1") "paris" "u1"
    ["paris"] ["u1_paris"]
    (by decide) rfl (by decide) (by decide) rfl rfl (by decide) (by decide)

/-- The bound of the amended C1 is needed: on a tally holding `2 ^ 53` the sum of
line 62 is rounded back, so a first vote is answered with `newCount = 2 ^ 53` and
the tally document keeps its count. -/
theorem first_vote_saturated :
    saturatedStore.userVotes ["u1_paris"] = none ∧
    tallyCount saturatedStore ["paris"] = 2 ^ 53 ∧
    (handler saturatedStore 3 (voteEvent "paris" "u1")).1 =
        { statusCode := 200,
          body := .json [("success", .bool true),
                         ("message", .str "Vote recorded for paris"),
                         ("newCount", .num (2 ^ 53))] } ∧
    (handler saturatedStore 3 (voteEvent "paris" "u1")).2.destinationVotes ["paris"] =
        saturatedStore.destinationVotes ["paris"] := by
  have hnext : nextCount (saturatedStore.destinationVotes ["paris"]) = 2 ^ 53 := by
    norm_num [saturatedStore, nextCount, readVoteCount, orZero, roundDouble, Nat.log2]
  refine ⟨rfl, by simp [tallyCount, saturatedStore], ?_, ?_⟩
  · rw [handler_vote saturatedStore 3 (voteEvent "paris" "u1") "paris" "u1"
      ["paris"] ["u1_paris"] rfl rfl (by decide) (by decide) rfl rfl,
      voteTransaction_fresh saturatedStore 3 ["paris"] ["u1_paris"] rfl, hnext]
    simp [jsonStringify]
  · rw [handler_vote saturatedStore 3 (voteEvent "paris" "u1") "paris" "u1"
      ["paris"] ["u1_paris"] rfl rfl (by decide) (by decide) rfl rfl,
      voteTransaction_fresh saturatedStore 3 ["paris"] ["u1_paris"] rfl, hnext]
    simp [writeDoc, saturatedStore, setMergeVoteCount]

/-- C7 (wrong method): whatever the store and the body, a request whose method is
not POST is answered with status 405 and leaves the store as it was. -/
theorem non_post_rejected (db : Store) (now : Nat) (event : Event)
    (hm : event.httpMethod ≠ "POST") :
    (handler db now event).1.statusCode = 405 ∧ (handler db now event).2 = db := by
  rw [handler_not_post db now event hm]
  exact ⟨rfl, rfl⟩

theorem non_post_rejected_witness :
    (handler seededStore 0 { httpMethod := "GET", body := .syntaxError }).1.statusCode = 405 ∧
    (handler seededStore 0 { httpMethod := "GET", body := .syntaxError }).2 = seededStore :=
  non_post_rejected seededStore 0 { httpMethod := "GET", body := .syntaxError } (by decide)

/-- C2 (repeat vote), evaluated where the code departs from it: the receipt of
`(u1, paris)` exists and the tally document of `paris` has no `voteCount`, so the
count to report is 0; the handler answers 200 with `{success: false, message:
"Already voted"}` and no `currentCount` property at all. -/
theorem repeat_vote_count_dropped :
    docPath (.str "paris") = .ok ["paris"] ∧
    docPath (.str (userVoteId (.str "u1") (.str "paris"))) = .ok ["u1_paris"] ∧
    seededStore.userVotes ["u1_paris"] ≠ none ∧
    tallyCount seededStore ["paris"] = 0 ∧
    (handler seededStore 9 (voteEvent "paris" "u1")).1 =
      { statusCode := 200,
        body := .json [("success", .bool false), ("message", .str "Already voted")] } :=
  ⟨rfl, rfl, by decide, by decide, by decide⟩

/-- C3 (exactly-once invariant), evaluated where the code departs from it: from
the empty store, voter `a_b` votes for `c` and then voter `a` votes for `b_c`.
Both requests are valid and `a` is the one distinct voter of `b_c`, but the two
pairs share a receipt id, so the second call is answered "Already voted" and the
tally of `b_c` stays 0 while the receipt of `(a, b_c)` exists. -/
theorem colliding_vote_not_counted :
    (runCalls Store.empty (voteCalls [(0, "c", "a_b"), (1, "b_c", "a")])).1 =
      [{ statusCode := 200,
         body := .json [("success", .bool true), ("message", .str "Vote recorded for c"),
                        ("newCount", .num 1)] },
       { statusCode := 200,
         body := .json [("success", .bool false), ("message", .str "Already voted"),
                        ("currentCount", .num 0)] }] ∧
    docPath (.str (userVoteId (.str "a") (.str "b_c"))) = .ok ["a_b_c"] ∧
    (runCalls Store.empty (voteCalls [(0, "c", "a_b"), (1, "b_c", "a")])).2.userVotes
        ["a_b_c"] ≠ none ∧
    docPath (.str "b_c") = .ok ["b_c"] ∧
    tallyCount (runCalls Store.empty (voteCalls [(0, "c", "a_b"), (1, "b_c", "a")])).2
        ["b_c"] = 0 ∧
    distinctVoters [(0, "c", "a_b"), (1, "b_c", "a")] "b_c" = 1 :=
  ⟨by decide, rfl, by decide, rfl, by decide, by decide⟩

/-- C4 (receipt id unique to the pair), evaluated where the code departs from it:
the distinct pairs `(a_b, c)` and `(a, b_c)` of non-empty strings get the same
receipt document id. -/
theorem userVoteId_collision :
    userVoteId (.str "a_b") (.str "c") = userVoteId (.str "a") (.str "b_c") ∧
    "a_b" ≠ "a" ∧ "c" ≠ "b_c" := by
  decide

/-- C5 as stated fails: a request for destination `paris/` and voter `u2` rewrites
the tally document of the other destination `paris` and creates the receipt
document of the other pair `(u2, paris)`, because the client drops the trailing
slash of a path. -/
theorem trailing_slash_rewrites_paris :
    "paris" ≠ "paris/" ∧
    docPath (.str "paris") = .ok ["paris"] ∧
    (handler seededStore 4 (voteEvent "paris/" "u2")).2.destinationVotes ["paris"] ≠
      seededStore.destinationVotes ["paris"] ∧
    docPath (.str (userVoteId (.str "u2") (.str "paris"))) = .ok ["u2_paris"] ∧
    seededStore.userVotes ["u2_paris"] = none ∧
    (handler seededStore 4 (voteEvent "paris/" "u2")).2.userVotes ["u2_paris"] ≠ none :=
  ⟨by decide, rfl, by decide, rfl, by decide, by decide⟩

/-- C5 amended (frame of a vote): for a request whose body destructures to strings
`d` and `v`: when the client does not resolve `d` or the receipt id of `(v, d)`,
the store is left as it was; when it resolves them to the references `tref` and
`rref`, the call leaves every tally document other than `tref`, every receipt
document other than `rref` and the fields other than `voteCount` of the tally
document `tref` as they were, and, the tally count being below `2 ^ 53`, the tally
document `tref` changes exactly when the receipt document `rref` is created by
the call. -/
theorem vote_frame (db : Store) (now : Nat) (event : Event) (d v : String)
    (hb : destructure event.body = .ok (.str d, .str v)) :
    (((∀ ref, docPath (.str d) ≠ .ok ref) ∨
        (∀ ref, docPath (.str (userVoteId (.str v) (.str d))) ≠ .ok ref)) →
      (handler db now event).2 = db) ∧
    (∀ tref rref, docPath (.str d) = .ok tref →
      docPath (.str (userVoteId (.str v) (.str d))) = .ok rref →
      (∀ t', t' ≠ tref →
        (handler db now event).2.destinationVotes t' = db.destinationVotes t') ∧
      (∀ r', r' ≠ rref → (handler db now event).2.userVotes r' = db.userVotes r') ∧
      otherFields ((handler db now event).2.destinationVotes tref) =
        otherFields (db.destinationVotes tref) ∧
      (tallyCount db tref < 2 ^ 53 →
        ((handler db now event).2.destinationVotes tref ≠ db.destinationVotes tref ↔
          (db.userVotes rref = none ∧ (handler db now event).2.userVotes rref ≠ none)))) := by
  refine ⟨fun hp => ?_, fun tref rref hdr hrr => ?_⟩
  · by_cases hm : event.httpMethod = "POST"
    · exact handler_bad_path db now event d v hm hb hp
    · rw [handler_not_post db now event hm]
  · have unchanged : (handler db now event).2 = db →
        (∀ t', t' ≠ tref →
          (handler db now event).2.destinationVotes t' = db.destinationVotes t') ∧
        (∀ r', r' ≠ rref → (handler db now event).2.userVotes r' = db.userVotes r') ∧
        otherFields ((handler db now event).2.destinationVotes tref) =
          otherFields (db.destinationVotes tref) ∧
        (tallyCount db tref < 2 ^ 53 →
          ((handler db now event).2.destinationVotes tref ≠ db.destinationVotes tref ↔
            (db.userVotes rref = none ∧
              (handler db now event).2.userVotes rref ≠ none))) := by
      intro h
      rw [h]
      refine ⟨fun _ _ => rfl, fun _ _ => rfl, rfl, fun _ => ?_⟩
      constructor
      · intro hne; exact absurd rfl hne
      · rintro ⟨h1, h2⟩; exact absurd h1 h2
    by_cases hm : event.httpMethod = "POST"
    · by_cases hd : d = ""
      · apply unchanged
        rw [handler_falsy db now event _ _ hm hb (Or.inl (by simp [JsVal.truthy, hd]))]
      · by_cases hv : v = ""
        · apply unchanged
          rw [handler_falsy db now event _ _ hm hb (Or.inr (by simp [JsVal.truthy, hv]))]
        · rcases Option.eq_none_or_eq_some (db.userVotes rref) with hr | ⟨r, hr⟩
          · rw [handler_vote db now event d v tref rref hm hb hd hv hdr hrr,
              voteTransaction_fresh db now tref rref hr]
            refine ⟨?_, ?_, ?_, ?_⟩
            · intro t' ht'
              simp [writeDoc, ht']
            · intro r' hr'
              simp [writeDoc, hr']
            · simp only [writeDoc, if_true]
              exact otherFields_setMerge _ _
            · intro hn
              rw [nextCount_of_lt db tref hn]
              have hne : some (setMergeVoteCount (db.destinationVotes tref)
                  (tallyCount db tref + 1)) ≠ db.destinationVotes tref := by
                apply setMergeVoteCount_ne
                unfold tallyCount
                cases (db.destinationVotes tref).bind TallyDoc.voteCount <;> simp
              simp only [writeDoc, if_true]
              exact ⟨fun _ => ⟨hr, by simp⟩, fun _ => hne⟩
          · apply unchanged
            rw [handler_vote db now event d v tref rref hm hb hd hv hdr hrr]
            exact (voteTransaction_repeat db now tref rref r hr).2
    · apply unchanged
      rw [handler_not_post db now event hm]

theorem vote_frame_witness :
    (((∀ ref, docPath (.str "paris") ≠ .ok ref) ∨
        (∀ ref, docPath (.str (userVoteId (.str "u2") (.str "paris"))) ≠ .ok ref)) →
      (handler seededStore 4 (voteEvent "paris" "u2")).2 = seededStore) ∧
    (∀ tref rref, docPath (.str "paris") = .ok tref →
      docPath (.str (userVoteId (.str "u2") (.str "paris"))) = .ok rref →
      (∀ t', t' ≠ tref →
        (handler seededStore 4 (voteEvent "paris" "u2")).2.destinationVotes t' =
          seededStore.destinationVotes t') ∧
      (∀ r', r' ≠ rref →
        (handler seededStore 4 (voteEvent "paris" "u2")).2.userVotes r' =
          seededStore.userVotes r') ∧
      otherFields ((handler seededStore 4 (voteEvent "paris" "u2")).2.destinationVotes tref) =
        otherFields (seededStore.destinationVotes tref) ∧
      (tallyCount seededStore tref < 2 ^ 53 →
        ((handler seededStore 4 (voteEvent "paris" "u2")).2.destinationVotes tref ≠
            seededStore.destinationVotes tref ↔
          (seededStore.userVotes rref = none ∧
            (handler seededStore 4 (voteEvent "paris" "u2")).2.userVotes rref ≠ none)))) :=
  vote_frame seededStore 4 (voteEvent "paris" "u2") "paris" "u2" rfl

/-- C6 (missing fields), evaluated where the code departs from it: a POST whose
body is the well-formed JSON value `null` has neither field, yet destructuring it
throws and the handler answers 500, not 400. -/
theorem null_body_internal_error (db : Store) (now : Nat) :
    handler db now { httpMethod := "POST", body := .null } =
      ({ statusCode := 500,
         body := .json [("success", .bool false),
                        ("error", .str "Internal server error processing vote.")] }, db) :=
  handler_throws db now _ .typeError rfl rfl

/-- Validation of the two fields: a POST whose body is well-formed JSON other
than `null` in which `destinationId` or `voterId` is missing or empty (or any
other falsy value) is answered 400 with `{success: false, error}` and the store
is unchanged. -/
theorem missing_field_rejected (db : Store) (now : Nat) (event : Event) (x y : JsVal)
    (hm : event.httpMethod = "POST") (hb : destructure event.body = .ok (x, y))
    (hf : x.truthy = false ∨ y.truthy = false) :
    (handler db now event).1 =
      { statusCode := 400,
        body := .json [("success", .bool false),
                       ("error", .str "Missing destinationId or voterId")] } ∧
    (handler db now event).2 = db := by
  rw [handler_falsy db now event x y hm hb hf]
  exact ⟨rfl, rfl⟩

/-- C8 as stated fails: a POST with a malformed body is not answered with 400. -/
theorem malformed_body_not_400 :
    (handler Store.empty 0 { httpMethod := "POST", body := .syntaxError }).1.statusCode
      ≠ 400 := by
  decide

/-- C8 amended (malformed body): a POST whose body is not well-formed JSON is
answered with status 500 and body `{success: false, error}` through the generic
catch branch, and the store is unchanged. -/
theorem malformed_body_internal_error (db : Store) (now : Nat) (event : Event)
    (hm : event.httpMethod = "POST") (hb : event.body = .syntaxError) :
    (handler db now event).1 =
      { statusCode := 500,
        body := .json [("success", .bool false),
                       ("error", .str "Internal server error processing vote.")] } ∧
    (handler db now event).2 = db := by
  rw [handler_throws db now event .syntaxError hm (by rw [hb]; rfl)]
  exact ⟨rfl, rfl⟩

theorem malformed_body_internal_error_witness :
    (handler seededStore 1 { httpMethod := "POST", body := .syntaxError }).1 =
      { statusCode := 500,
        body := .json [("success", .bool false),
                       ("error", .str "Internal server error processing vote.")] } ∧
    (handler seededStore 1 { httpMethod := "POST", body := .syntaxError }).2 = seededStore :=
  malformed_body_internal_error seededStore 1 { httpMethod := "POST", body := .syntaxError }
    rfl rfl

/-- C9 as stated fails: a GET request fails with status 405 and its body is the
text `Method Not Allowed`, not a JSON-encoded object containing `success`. -/
theorem method_failure_not_json :
    (handler Store.empty 0 { httpMethod := "GET", body := .scalar }).1.statusCode = 405 ∧
    (handler Store.empty 0 { httpMethod := "GET", body := .scalar }).1.body.successFlag
      ≠ some (.bool false) := by
  decide

/-- C9 amended (failures are structured): whenever the handler does not answer
200, either the status is 400 or 500 and the body is a JSON-encoded object with
`success = false`, or the status is 405 and the body is the plain text
`Method Not Allowed`. -/
theorem failure_structured (db : Store) (now : Nat) (event : Event)
    (hf : (handler db now event).1.statusCode ≠ 200) :
    (((handler db now event).1.statusCode = 400 ∨
        (handler db now event).1.statusCode = 500) ∧
      (handler db now event).1.body.successFlag = some (.bool false)) ∨
    ((handler db now event).1.statusCode = 405 ∧
      (handler db now event).1.body = .text "Method Not Allowed") := by
  rcases handler_shapes db now event with h | h | h | h
  · right; rw [h]; exact ⟨rfl, rfl⟩
  · left; rw [h]; exact ⟨Or.inl rfl, by decide⟩
  · left; rw [h]; exact ⟨Or.inr rfl, by decide⟩
  · exact absurd h hf

theorem failure_structured_witness :
    (((handler Store.empty 0 { httpMethod := "POST", body := .scalar }).1.statusCode = 400 ∨
        (handler Store.empty 0 { httpMethod := "POST", body := .scalar }).1.statusCode = 500) ∧
      (handler Store.empty 0 { httpMethod := "POST", body := .scalar }).1.body.successFlag
        = some (.bool false)) ∨
    ((handler Store.empty 0 { httpMethod := "POST", body := .scalar }).1.statusCode = 405 ∧
      (handler Store.empty 0 { httpMethod := "POST", body := .scalar }).1.body
        = .text "Method Not Allowed") :=
  failure_structured Store.empty 0 { httpMethod := "POST", body := .scalar } (by decide)

end RecordVote
